import Mathlib

/-!
Verification of the armhf_cross_compile repository against its
natural-language specification.

The repository consists of:
- a Makefile (the build-variant resolver): maps a (route, build mode) pair
  to compiler, flag bundle, define token and artifact name;
- include/logger.h: a severity-filtered logging facility;
- src/main.cpp: a sample program with a signal-driven main loop;
- deploy.sh: a deploy/remote-debug orchestrator;
- scripts/test_build.sh: a build verification harness.

Each component is embedded shallowly below, translated from the source.
-/

/-! ## Build-variant resolver (Makefile) -/

/-- `PROJECT_NAME := firmware` -/
def PROJECT_NAME : String := "firmware"

/-- `COMMON_FLAGS := -Wall -Wextra -Wpedantic -std=c++17` -/
def COMMON_FLAGS : List String := ["-Wall", "-Wextra", "-Wpedantic", "-std=c++17"]

/-- `DEBUG_FLAGS := -g3 -O0 -DDEBUG` -/
def DEBUG_FLAGS : List String := ["-g3", "-O0", "-DDEBUG"]

/-- `RELEASE_FLAGS := -O2 -DNDEBUG -s` -/
def RELEASE_FLAGS : List String := ["-O2", "-DNDEBUG", "-s"]

/-- `ifeq ($(BUILD_MODE),release) CFLAGS := $(COMMON_FLAGS) $(RELEASE_FLAGS)
else CFLAGS := $(COMMON_FLAGS) $(DEBUG_FLAGS)`.  Any `BUILD_MODE` other than
the literal string `release` selects the debug bundle (the Makefile default
is `debug`). -/
def CFLAGS (BUILD_MODE : String) : List String :=
  if BUILD_MODE = "release" then COMMON_FLAGS ++ RELEASE_FLAGS
  else COMMON_FLAGS ++ DEBUG_FLAGS

/-- `BUILD_TYPE`: `Release` when `BUILD_MODE = release`, else `Debug`. -/
def BUILD_TYPE (BUILD_MODE : String) : String :=
  if BUILD_MODE = "release" then "Release" else "Debug"

/-- `TARGET_BINARY := $(PROJECT_NAME).bin` -/
def TARGET_BINARY : String := PROJECT_NAME ++ ".bin"

/-- `HOST_BINARY := program.bin` -/
def HOST_BINARY : String := "program.bin"

/-- `CROSS_BINARY := $(PROJECT_NAME)_$(CROSS_ARCH).bin` -/
def CROSS_BINARY (CROSS_ARCH : String) : String :=
  PROJECT_NAME ++ "_" ++ CROSS_ARCH ++ ".bin"

/-- `TARGET_CPP := arm-linux-gnueabihf-g++` (dedicated ARM HF cross toolchain). -/
def TARGET_CPP : String := "arm-linux-gnueabihf-g++"

/-- `HOST_CPP := g++` -/
def HOST_CPP : String := "g++"

/-- Supported `CROSS_ARCH` values listed by `make help`. -/
def SUPPORTED_ARCHS : List String :=
  ["arm64", "armhf", "armel", "riscv64", "amd64", "i386"]

/-- The three build routes of the Makefile: the dedicated ARM HF target
(`make` / `make debug` / `make release`, rule `$(TARGET_BINARY)`), the host
build (rule `$(HOST_BINARY)`), and the generic cross-compile route
(`make cross_compile CROSS_ARCH=<arch> CPP=<compiler>`, rule
`$(CROSS_BINARY)`). -/
inductive BuildRoute
  | target
  | host
  | cross (CROSS_ARCH : String) (CPP : String)
deriving DecidableEq, Repr

/-- The concrete compiler invocation a build rule performs: which compiler,
which flag bundle, which architecture define token, and which artifact it
produces. -/
structure BuildInvocation where
  compiler : String
  flags : List String
  defineFlag : String
  artifact : String
deriving DecidableEq, Repr

/-- The build-variant resolver: each Makefile rule compiles
`$(PROJECT_SOURCES)` with `$(CFLAGS)` plus one define token and names the
output by its rule target.
- `$(TARGET_BINARY)`: `$(TARGET_CPP) $(CFLAGS) -DTARGET ... -o firmware.bin`
- `$(HOST_BINARY)`: `$(HOST_CPP) $(CFLAGS) -DHOST ... -o program.bin`
- `$(CROSS_BINARY)`: `$(CPP) $(CFLAGS) -D$(CROSS_ARCH) ... -o firmware_$(CROSS_ARCH).bin` -/
def resolveVariant : BuildRoute → String → BuildInvocation
  | BuildRoute.target, m => ⟨TARGET_CPP, CFLAGS m, "-DTARGET", TARGET_BINARY⟩
  | BuildRoute.host, m => ⟨HOST_CPP, CFLAGS m, "-DHOST", HOST_BINARY⟩
  | BuildRoute.cross a c, m => ⟨c, CFLAGS m, "-D" ++ a, CROSS_BINARY a⟩

/-! ## Logging facility (include/logger.h)

`LogLevel` is a C++ `enum class` with underlying integer values
`LVL_TRACE = 0 … LVL_FATAL = 5`; since a value outside the enumerators is
representable, the severity is embedded as an `Int`. -/

/-- `LVL_TRACE = 0` -/
def LVL_TRACE : Int := 0
/-- `LVL_DEBUG = 1` -/
def LVL_DEBUG : Int := 1
/-- `LVL_INFO = 2` -/
def LVL_INFO : Int := 2
/-- `LVL_WARN = 3` -/
def LVL_WARN : Int := 3
/-- `LVL_ERROR = 4` -/
def LVL_ERROR : Int := 4
/-- `LVL_FATAL = 5` -/
def LVL_FATAL : Int := 5

/-- `Logger::levelToString`: the C++ `switch` over the six enumerators with a
`default` branch returning `"?????"`. -/
def levelToString (level : Int) : String :=
  if level = LVL_TRACE then "TRACE"
  else if level = LVL_DEBUG then "DEBUG"
  else if level = LVL_INFO then "INFO "
  else if level = LVL_WARN then "WARN "
  else if level = LVL_ERROR then "ERROR"
  else if level = LVL_FATAL then "FATAL"
  else "?????"

/-- Suffix of a character list strictly after the LAST occurrence of `c`
(`strrchr` + 1), or `none` when `c` does not occur. -/
def afterLast (c : Char) : List Char → Option (List Char)
  | [] => none
  | x :: xs =>
    match afterLast c xs with
    | some r => some r
    | none => if x = c then some xs else none

/-- `Logger::getFilename`: `strrchr(path, '/')` first; if no slash occurs,
`strrchr(path, '\\')`; otherwise the path unchanged. -/
def getFilename (path : String) : String :=
  match afterLast '/' path.data with
  | some r => String.mk r
  | none =>
    match afterLast '\\' path.data with
    | some r => String.mk r
    | none => path

/-- The single line `Logger::log` writes to its sink:
`fprintf(output_, "%s %s [%s] [%s:%d] : ", timestamp, levelToString(level),
func, filename, line)` followed by the formatted message and `"\n"`. -/
def logFormat (timestamp : String) (level : Int) (func file : String)
    (line : Int) (msg : String) : String :=
  timestamp ++ " " ++ levelToString level ++ " [" ++ func ++ "] ["
    ++ getFilename file ++ ":" ++ toString line ++ "] : " ++ msg ++ "\n"

/-- `Logger::log`: returns before any formatting when `level < minLevel_`
(no output); otherwise emits exactly the formatted line.  The timestamp is
ambient wall-clock state and is passed in as a string. -/
def Logger.log (minLevel level : Int) (timestamp func file : String)
    (line : Int) (msg : String) : Option String :=
  if level < minLevel then none
  else some (logFormat timestamp level func file line msg)

/-- Number of newline characters in a string. -/
def countNewlines (s : String) : Nat := s.data.count '\n'

/-- Rendering of the spec sentence "level left-padded to 5 characters":
pad on the LEFT with spaces up to the stated width. -/
def specLeftPad (width : Nat) (s : String) : String :=
  String.mk (List.replicate (width - s.length) ' ') ++ s

/-! ## Deploy/debug orchestrator (deploy.sh)

`deploy.sh` runs under `set -e`.  After parsing its six positional
arguments it checks that the local binary exists (`exit 1` otherwise), then
that `sshpass` is installed (`exit 1` otherwise), then performs four remote
steps strictly in order: cleanup (`ssh … pkill gdbserver; rm -rf …`, with a
trailing `|| true` so its failure is tolerated), transfer (`scp`),
permission adjustment (`ssh … chmod +x`), and debug-server launch
(`ssh -t … gdbserver`).  Under `set -e`, the first failing untolerated
command aborts the script with its nonzero status. -/

/-- The four remote steps of `deploy.sh`, in script order. -/
inductive RemoteStep
  | cleanup
  | transfer
  | chmodStep
  | gdbserverLaunch
deriving DecidableEq, Repr

/-- The environment a `deploy.sh` run faces: whether the local binary file
exists, whether `sshpass` is installed, and whether each remote command
succeeds when attempted. -/
structure DeployEnv where
  binaryExists : Bool
  sshpassInstalled : Bool
  cleanupOk : Bool
  transferOk : Bool
  chmodOk : Bool
  gdbserverOk : Bool
deriving DecidableEq, Repr

/-- Outcome of a `deploy.sh` run: the remote commands actually issued, in
order, and whether the script exited with status 0. -/
structure DeployResult where
  remoteSteps : List RemoteStep
  exitOk : Bool
deriving DecidableEq, Repr

/-- The orchestrator, step by step in script order.  The cleanup command is
issued unconditionally once the local checks pass, and its `|| true` makes
its outcome (`cleanupOk`) irrelevant to the rest of the run; each later
step's failure aborts the script (`set -e`) with a nonzero status, leaving
the remaining steps unexecuted. -/
def deployRun (env : DeployEnv) : DeployResult :=
  if env.binaryExists = false then ⟨[], false⟩
  else if env.sshpassInstalled = false then ⟨[], false⟩
  else
    let steps1 := [RemoteStep.cleanup]
    let steps2 := steps1 ++ [RemoteStep.transfer]
    if env.transferOk = false then ⟨steps2, false⟩
    else
      let steps3 := steps2 ++ [RemoteStep.chmodStep]
      if env.chmodOk = false then ⟨steps3, false⟩
      else
        let steps4 := steps3 ++ [RemoteStep.gdbserverLaunch]
        if env.gdbserverOk = false then ⟨steps4, false⟩
        else ⟨steps4, true⟩

/-! ## Build verification harness (scripts/test_build.sh)

The script tracks `PASSED`, `FAILED` and the array `FAILED_ARCHS`.  It first
records the host build (`make host_compile`), then the default ARM HF build
(`make`), then iterates `ARCH_COMPILERS`, skipping any architecture whose
compiler `command -v` does not find, and finally prints a summary and exits
with `[ $FAILED -eq 0 ]`. -/

/-- The harness counters: `PASSED`, `FAILED`, `FAILED_ARCHS`. -/
structure TestState where
  passed : Nat
  failed : Nat
  failedArchs : List String
deriving DecidableEq, Repr

/-- What happens to one listed architecture: toolchain absent (skip), build
succeeded, or build failed. -/
inductive ArchOutcome
  | skipped
  | passed
  | failed
deriving DecidableEq, Repr

/-- The `ARCH_COMPILERS` associative array (one listing order). -/
def ARCH_COMPILERS : List (String × String) :=
  [("arm64", "aarch64-linux-gnu-g++"),
   ("armel", "arm-linux-gnueabi-g++"),
   ("riscv64", "riscv64-linux-gnu-g++"),
   ("amd64", "x86_64-linux-gnu-g++"),
   ("i386", "i686-linux-gnu-g++")]

/-- The per-architecture decision of the loop body: `command -v $compiler`
absent ⇒ skip (`continue`); otherwise pass or fail according to
`make cross_compile`.  `avail` tells which compilers the invoking machine
has; `buildOk` tells which architectures' builds succeed when attempted. -/
def archOutcome (avail buildOk : String → Bool) (p : String × String) : ArchOutcome :=
  if avail p.2 = false then ArchOutcome.skipped
  else if buildOk p.1 = true then ArchOutcome.passed
  else ArchOutcome.failed

/-- One iteration of the `ARCH_COMPILERS` loop acting on the counters. -/
def stepArch (avail buildOk : String → Bool) (st : TestState)
    (p : String × String) : TestState :=
  match archOutcome avail buildOk p with
  | ArchOutcome.skipped => st
  | ArchOutcome.passed => { st with passed := st.passed + 1 }
  | ArchOutcome.failed =>
      { st with failed := st.failed + 1, failedArchs := st.failedArchs ++ [p.1] }

/-- Recording one unconditional build attempt (host or default ARM HF). -/
def recordBuild (name : String) (ok : Bool) (st : TestState) : TestState :=
  if ok then { st with passed := st.passed + 1 }
  else { st with failed := st.failed + 1, failedArchs := st.failedArchs ++ [name] }

/-- Counters after the host and default ARM HF attempts, before the loop. -/
def initState (hostOk armhfOk : Bool) : TestState :=
  recordBuild "armhf" armhfOk (recordBuild "host" hostOk ⟨0, 0, []⟩)

/-- The whole harness run: host attempt, ARM HF attempt, then the
`ARCH_COMPILERS` loop. -/
def runHarness (avail buildOk : String → Bool) (hostOk armhfOk : Bool)
    (archs : List (String × String)) : TestState :=
  archs.foldl (stepArch avail buildOk) (initState hostOk armhfOk)

/-- `[ $FAILED -eq 0 ]`: the script's exit status. -/
def exitCode (st : TestState) : Nat := if st.failed = 0 then 0 else 1

/-- The summary block the script prints: the two counter lines, and when
`FAILED > 0` a header plus one `    - <arch>` line per failed architecture. -/
def summaryLines (st : TestState) : List String :=
  ["  Passed: " ++ toString st.passed, "  Failed: " ++ toString st.failed]
    ++ (if 0 < st.failed then
          "  Failed architectures:" :: st.failedArchs.map (fun a => "    - " ++ a)
        else [])

/-- Names of the listed architectures whose build is attempted and fails. -/
def archFailures (avail buildOk : String → Bool)
    (archs : List (String × String)) : List String :=
  archs.filterMap (fun p =>
    match archOutcome avail buildOk p with
    | ArchOutcome.failed => some p.1
    | _ => none)

/-! ## Sample program main loop (src/main.cpp mainLoop)

Each loop iteration, in source order: under `#ifdef DEBUG` log the counter
unconditionally, otherwise (release) log it only when `counter % 10 == 0`;
increment the counter; under `#ifdef DEBUG` additionally emit a TRACE line
when the incremented counter is a multiple of 10; finally
`usleep(LOOP_DELAY_US)`.  On exit the program logs
`"Main loop exited after %d iterations"` with the final counter. -/

/-- Observable events of one `mainLoop` run. -/
inductive LoopEv
  | logCounter (n : Nat)
  | periodicTrace (n : Nat)
  | sleep (us : Nat)
  | exitReport (n : Nat)
deriving DecidableEq, Repr

/-- `LOOP_DELAY_US (500 * 1000)` from config.h: 500 ms. -/
def LOOP_DELAY_US : Nat := 500 * 1000

/-- The events of one loop iteration entered with counter value `counter`;
`dbg` is whether the build defined `DEBUG`. -/
def loopIterEvents (dbg : Bool) (counter : Nat) : List LoopEv :=
  (match dbg with
   | true => [LoopEv.logCounter counter]
   | false => if counter % 10 = 0 then [LoopEv.logCounter counter] else [])
  ++ (match dbg with
      | true =>
        if (counter + 1) % 10 = 0 then [LoopEv.periodicTrace (counter + 1)] else []
      | false => [])
  ++ [LoopEv.sleep LOOP_DELAY_US]

/-- The loop starting from counter value `counter`, with the shared flag
observed as "keep running" for exactly `k` more checks (the handler flips
the flag asynchronously; `k` is how many iterations run before the check
observes it).  Returns the events and the final counter. -/
def mainLoopFrom (dbg : Bool) : Nat → Nat → List LoopEv × Nat
  | 0, counter => ([], counter)
  | k + 1, counter =>
    let rest := mainLoopFrom dbg k (counter + 1)
    (loopIterEvents dbg counter ++ rest.1, rest.2)

/-- A whole `mainLoop` run: counter starts at 0 and the exit report logs the
final counter value. -/
def mainLoop (dbg : Bool) (iters : Nat) : List LoopEv :=
  let r := mainLoopFrom dbg iters 0
  r.1 ++ [LoopEv.exitReport r.2]

/-! ## Claims C1 and C7 -/

/-- The debug `CFLAGS` bundle, evaluated. -/
theorem CFLAGS_debug :
    CFLAGS "debug" =
      ["-Wall", "-Wextra", "-Wpedantic", "-std=c++17", "-g3", "-O0", "-DDEBUG"] := by
  decide

/-- The release `CFLAGS` bundle, evaluated. -/
theorem CFLAGS_release :
    CFLAGS "release" =
      ["-Wall", "-Wextra", "-Wpedantic", "-std=c++17", "-O2", "-DNDEBUG", "-s"] := by
  decide

/-- C1: for every supported (architecture, profile) pair the resolver selects
the documented flag bundle — profile `debug` yields `-g3 -O0 -DDEBUG`
(unoptimized, full symbols, DEBUG marker) and profile `release` yields
`-O2 -DNDEBUG -s` (optimized, stripped, NDEBUG marker), on top of the common
warning/standard flags; in particular for architecture `arm64`, profile
`release`, the flags include `-O2` and `-DNDEBUG` and no `-g` debug-symbol
flag. -/
theorem C1_flag_bundles :
    (∀ r : BuildRoute,
      (resolveVariant r "debug").flags =
        ["-Wall", "-Wextra", "-Wpedantic", "-std=c++17", "-g3", "-O0", "-DDEBUG"] ∧
      (resolveVariant r "release").flags =
        ["-Wall", "-Wextra", "-Wpedantic", "-std=c++17", "-O2", "-DNDEBUG", "-s"]) ∧
    "-O2" ∈ (resolveVariant (BuildRoute.cross "arm64" "aarch64-linux-gnu-g++") "release").flags ∧
    "-DNDEBUG" ∈ (resolveVariant (BuildRoute.cross "arm64" "aarch64-linux-gnu-g++") "release").flags ∧
    ((resolveVariant (BuildRoute.cross "arm64" "aarch64-linux-gnu-g++") "release").flags.all
      (fun f => f.data.take 2 != ['-', 'g'])) = true := by
  refine ⟨fun r => ?_, by decide, by decide, by decide⟩
  cases r <;> exact ⟨CFLAGS_debug, CFLAGS_release⟩

/-- C7 counterexample: the claim says the severity label is LEFT-padded to 5
characters, but `levelToString` pads the short labels on the RIGHT:
`LVL_INFO` yields `"INFO "` (trailing space), not the left-padded `" INFO"`. -/
theorem C7_counterexample :
    levelToString LVL_INFO = "INFO " ∧
    specLeftPad 5 "INFO" = " INFO" ∧
    levelToString LVL_INFO ≠ specLeftPad 5 "INFO" := by
  decide

/-- C7 amended: for every one of the six severities the label emitted in a
log line is exactly 5 characters wide, with the shorter names `INFO` and
`WARN` padded by a trailing space (right-padded / left-justified, not
left-padded). -/
theorem C7_labels_width_5 :
    levelToString LVL_TRACE = "TRACE" ∧
    levelToString LVL_DEBUG = "DEBUG" ∧
    levelToString LVL_INFO = "INFO " ∧
    levelToString LVL_WARN = "WARN " ∧
    levelToString LVL_ERROR = "ERROR" ∧
    levelToString LVL_FATAL = "FATAL" ∧
    (levelToString LVL_TRACE).length = 5 ∧
    (levelToString LVL_DEBUG).length = 5 ∧
    (levelToString LVL_INFO).length = 5 ∧
    (levelToString LVL_WARN).length = 5 ∧
    (levelToString LVL_ERROR).length = 5 ∧
    (levelToString LVL_FATAL).length = 5 := by
  decide

/-! ## Claim C9: artifact naming -/

/-- C9 counterexample: the claim says every supported architecture token
except `host` yields artifact `<project>_<architecture>.bin`, but `armhf` is
a supported token and its dedicated build route (`make` / `make debug` /
`make release`, the `$(TARGET_BINARY)` rule) names the artifact
`firmware.bin`, with no architecture suffix. -/
theorem C9_counterexample :
    "armhf" ∈ SUPPORTED_ARCHS ∧
    (resolveVariant BuildRoute.target "release").artifact = "firmware.bin" ∧
    (resolveVariant BuildRoute.target "release").artifact ≠ "firmware_armhf.bin" := by
  decide

/-- C9 amended: every architecture token passed through the generic
cross-compile route yields artifact `<project>_<architecture>.bin`
(e.g. `firmware_arm64.bin`); host builds use the host-specific name
`program.bin`; and the dedicated ARM HF route yields the unsuffixed
`firmware.bin`. -/
theorem C9_artifact_names :
    ∀ (arch cpp mode : String),
      (resolveVariant (BuildRoute.cross arch cpp) mode).artifact =
        PROJECT_NAME ++ "_" ++ arch ++ ".bin" ∧
      (resolveVariant (BuildRoute.cross "arm64" cpp) mode).artifact = "firmware_arm64.bin" ∧
      (resolveVariant BuildRoute.host mode).artifact = "program.bin" ∧
      (resolveVariant BuildRoute.target mode).artifact = "firmware.bin" := by
  intro arch cpp mode
  exact ⟨rfl, rfl, rfl, rfl⟩

/-! ## Claims C6 and C10: the logging facility -/

/-- Newlines distribute over string append. -/
theorem countNewlines_append (a b : String) :
    countNewlines (a ++ b) = countNewlines a + countNewlines b := by
  simp [countNewlines, String.data_append, List.count_append]

/-- No severity label contains a newline. -/
theorem countNewlines_levelToString (level : Int) :
    countNewlines (levelToString level) = 0 := by
  unfold levelToString
  split_ifs <;> decide

/-- C6: a log call with severity strictly below the configured minimum
produces no output; a call at or above the minimum produces exactly the
newline-terminated line `timestamp LEVEL [function] [file:line] : message`,
where the file field is the basename of the source path; the line contains
exactly one newline beyond those occurring in the caller-supplied fields,
and the path `/a/b/c/file.cpp` yields file field `file.cpp`. -/
theorem C6_log_threshold_and_format :
    ∀ (minLevel level : Int) (ts func file : String) (line : Int) (msg : String),
      (level < minLevel → Logger.log minLevel level ts func file line msg = none) ∧
      (minLevel ≤ level →
        Logger.log minLevel level ts func file line msg =
          some (ts ++ " " ++ levelToString level ++ " [" ++ func ++ "] ["
            ++ getFilename file ++ ":" ++ toString line ++ "] : " ++ msg ++ "\n")) ∧
      countNewlines (logFormat ts level func file line msg) =
        countNewlines ts + countNewlines func + countNewlines (getFilename file)
          + countNewlines (toString line) + countNewlines msg + 1 ∧
      getFilename "/a/b/c/file.cpp" = "file.cpp" := by
  intro minLevel level ts func file line msg
  refine ⟨fun h => ?_, fun h => ?_, ?_, by decide⟩
  · simp [Logger.log, h]
  · simp [Logger.log, Int.not_lt.mpr h, logFormat]
  · simp only [logFormat, countNewlines_append, countNewlines_levelToString]
    have hs : countNewlines " " = 0 := by decide
    have h1 : countNewlines " [" = 0 := by decide
    have h2 : countNewlines "] [" = 0 := by decide
    have h3 : countNewlines ":" = 0 := by decide
    have h4 : countNewlines "] : " = 0 := by decide
    have h5 : countNewlines "\n" = 1 := by decide
    omega

/-- C6 witness: with minimum severity `LVL_INFO`, a `DEBUG` record is
dropped and an `ERROR` record from `/a/b/c/file.cpp` produces the exact
formatted line. -/
theorem C6_witness :
    Logger.log LVL_INFO LVL_DEBUG "2025-12-03 13:23:56" "run" "/a/b/c/file.cpp" 772 "hello" = none ∧
    Logger.log LVL_INFO LVL_ERROR "2025-12-03 13:23:56" "run" "/a/b/c/file.cpp" 772 "hello" =
      some ("2025-12-03 13:23:56" ++ " " ++ levelToString LVL_ERROR ++ " [" ++ "run" ++ "] ["
        ++ getFilename "/a/b/c/file.cpp" ++ ":" ++ toString (772 : Int) ++ "] : " ++ "hello" ++ "\n") := by
  exact ⟨(C6_log_threshold_and_format LVL_INFO LVL_DEBUG "2025-12-03 13:23:56" "run"
            "/a/b/c/file.cpp" 772 "hello").1 (by decide),
         (C6_log_threshold_and_format LVL_INFO LVL_ERROR "2025-12-03 13:23:56" "run"
            "/a/b/c/file.cpp" 772 "hello").2.1 (by decide)⟩

/-- C10: the severity-to-label mapping is total — every integer severity
value, including values outside the six defined levels, yields a 5-character
label (out-of-range values yield `"?????"`), and a log call at such a value
still produces the well-formed formatted line whenever it meets the
threshold. -/
theorem C10_levelToString_total :
    ∀ level : Int,
      (levelToString level).length = 5 ∧
      (level < LVL_TRACE ∨ LVL_FATAL < level → levelToString level = "?????") ∧
      (∀ (minLevel : Int) (ts func file : String) (line : Int) (msg : String),
        minLevel ≤ level →
          Logger.log minLevel level ts func file line msg =
            some (logFormat ts level func file line msg)) := by
  intro level
  refine ⟨?_, fun h => ?_, fun minLevel ts func file line msg h => ?_⟩
  · unfold levelToString
    split_ifs <;> decide
  · have h' : level < 0 ∨ 5 < level := by
      simpa only [LVL_TRACE, LVL_FATAL] using h
    have n0 : ¬ level = LVL_TRACE := by simp only [LVL_TRACE]; omega
    have n1 : ¬ level = LVL_DEBUG := by simp only [LVL_DEBUG]; omega
    have n2 : ¬ level = LVL_INFO := by simp only [LVL_INFO]; omega
    have n3 : ¬ level = LVL_WARN := by simp only [LVL_WARN]; omega
    have n4 : ¬ level = LVL_ERROR := by simp only [LVL_ERROR]; omega
    have n5 : ¬ level = LVL_FATAL := by simp only [LVL_FATAL]; omega
    simp [levelToString, n0, n1, n2, n3, n4, n5]
  · simp [Logger.log, Int.not_lt.mpr h]

/-- C10 witness: at the out-of-range severity 99, the label is `"?????"`
(5 characters) and logging still yields the formatted line. -/
theorem C10_witness :
    (levelToString 99).length = 5 ∧
    levelToString 99 = "?????" ∧
    Logger.log 0 99 "t" "main" "a/b.cpp" 7 "m" =
      some (logFormat "t" 99 "main" "a/b.cpp" 7 "m") := by
  exact ⟨(C10_levelToString_total 99).1,
         (C10_levelToString_total 99).2.1 (Or.inr (by decide)),
         (C10_levelToString_total 99).2.2 0 "t" "main" "a/b.cpp" 7 "m" (by decide)⟩

/-- C4: when the local artifact path names a nonexistent file, the
orchestrator exits with a nonzero status having issued no remote command at
all, whatever the rest of the environment looks like. -/
theorem C4_missing_binary_aborts :
    ∀ env : DeployEnv, env.binaryExists = false →
      deployRun env = ⟨[], false⟩ := by
  intro env h
  simp [deployRun, h]

/-- C4 witness: a concrete environment with the binary absent but every
remote step able to succeed still yields a failed run with no remote steps. -/
theorem C4_witness :
    deployRun ⟨false, true, true, true, true, true⟩ = ⟨[], false⟩ :=
  C4_missing_binary_aborts ⟨false, true, true, true, true, true⟩ rfl

/-- C5: the cleanup step's outcome never influences the run (so a cleanup
failure cannot prevent the transfer from being attempted); once the local
checks pass, the steps are issued strictly in the order cleanup, transfer,
permission adjustment, debug-server launch, the transfer is always attempted
right after cleanup, and the first failing post-cleanup step aborts the run
with nonzero status and the remaining steps unexecuted. -/
theorem C5_cleanup_tolerated_order :
    ∀ (env : DeployEnv) (b : Bool),
      deployRun { env with cleanupOk := b } = deployRun env ∧
      (env.binaryExists = true → env.sshpassInstalled = true →
        (RemoteStep.transfer ∈ (deployRun env).remoteSteps ∧
         (deployRun env).remoteSteps.take 2 = [RemoteStep.cleanup, RemoteStep.transfer] ∧
         (env.transferOk = false →
           deployRun env = ⟨[RemoteStep.cleanup, RemoteStep.transfer], false⟩) ∧
         (env.transferOk = true → env.chmodOk = false →
           deployRun env =
             ⟨[RemoteStep.cleanup, RemoteStep.transfer, RemoteStep.chmodStep], false⟩) ∧
         (env.transferOk = true → env.chmodOk = true → env.gdbserverOk = false →
           deployRun env =
             ⟨[RemoteStep.cleanup, RemoteStep.transfer, RemoteStep.chmodStep,
               RemoteStep.gdbserverLaunch], false⟩) ∧
         (env.transferOk = true → env.chmodOk = true → env.gdbserverOk = true →
           deployRun env =
             ⟨[RemoteStep.cleanup, RemoteStep.transfer, RemoteStep.chmodStep,
               RemoteStep.gdbserverLaunch], true⟩))) := by
  intro env b
  obtain ⟨e1, e2, e3, e4, e5, e6⟩ := env
  cases e1 <;> cases e2 <;> cases e3 <;> cases e4 <;> cases e5 <;> cases e6 <;> cases b <;>
    decide

/-- C5 witness: with the binary present, `sshpass` installed and a FAILING
cleanup, the transfer is still attempted (and with all later steps
succeeding the run succeeds end to end). -/
theorem C5_witness :
    deployRun ⟨true, true, false, true, true, true⟩ =
      deployRun ⟨true, true, true, true, true, true⟩ ∧
    RemoteStep.transfer ∈ (deployRun ⟨true, true, false, true, true, true⟩).remoteSteps ∧
    deployRun ⟨true, true, false, true, true, true⟩ =
      ⟨[RemoteStep.cleanup, RemoteStep.transfer, RemoteStep.chmodStep,
        RemoteStep.gdbserverLaunch], true⟩ := by
  refine ⟨(C5_cleanup_tolerated_order ⟨true, true, true, true, true, true⟩ false).1, ?_, ?_⟩
  · exact ((C5_cleanup_tolerated_order ⟨true, true, false, true, true, true⟩ false).2 rfl rfl).1
  · exact ((C5_cleanup_tolerated_order ⟨true, true, false, true, true, true⟩ false).2 rfl rfl).2.2.2.2.2
      rfl rfl rfl


/-! ## Claims C2 and C3: the build verification harness -/

/-- An architecture's outcome is `failed` exactly when its toolchain is
present and its build fails. -/
theorem archOutcome_failed_iff (avail buildOk : String → Bool) (p : String × String) :
    archOutcome avail buildOk p = ArchOutcome.failed ↔
      (avail p.2 = true ∧ buildOk p.1 = false) := by
  unfold archOutcome
  split_ifs with h1 h2 <;> simp_all

/-- Folding the loop body over a list adds exactly the attempted-and-failed
architectures to `FAILED` and `FAILED_ARCHS`. -/
theorem stepArch_foldl_invariant (avail buildOk : String → Bool) :
    ∀ (l : List (String × String)) (st : TestState),
      (List.foldl (stepArch avail buildOk) st l).failed
          = st.failed + (archFailures avail buildOk l).length ∧
      (List.foldl (stepArch avail buildOk) st l).failedArchs
          = st.failedArchs ++ archFailures avail buildOk l := by
  intro l
  induction l with
  | nil => intro st; simp [archFailures]
  | cons p l ih =>
    intro st
    obtain ⟨ih1, ih2⟩ := ih (stepArch avail buildOk st p)
    rw [List.foldl_cons] at *
    cases h : archOutcome avail buildOk p <;>
      · constructor
        · rw [ih1]
          simp [stepArch, h, archFailures, List.filterMap_cons]
          try omega
        · rw [ih2]
          simp [stepArch, h, archFailures, List.filterMap_cons]

/-- In every reachable harness state, `FAILED` equals the length of
`FAILED_ARCHS`. -/
theorem runHarness_failed_eq_length (avail buildOk : String → Bool)
    (hostOk armhfOk : Bool) (archs : List (String × String)) :
    (runHarness avail buildOk hostOk armhfOk archs).failed
      = (runHarness avail buildOk hostOk armhfOk archs).failedArchs.length := by
  obtain ⟨h1, h2⟩ := stepArch_foldl_invariant avail buildOk archs (initState hostOk armhfOk)
  rw [runHarness, h1, h2, List.length_append]
  cases hostOk <;> cases armhfOk <;> simp [initState, recordBuild]

/-- C2: an architecture whose expected toolchain is absent is skipped — its
loop iteration leaves the counters untouched — and removing it from the
listed set changes neither the final harness state nor the exit status. -/
theorem C2_absent_toolchain_skipped :
    ∀ (avail buildOk : String → Bool) (hostOk armhfOk : Bool)
      (p : String × String) (l1 l2 : List (String × String)) (st : TestState),
      avail p.2 = false →
        archOutcome avail buildOk p = ArchOutcome.skipped ∧
        stepArch avail buildOk st p = st ∧
        runHarness avail buildOk hostOk armhfOk (l1 ++ p :: l2)
          = runHarness avail buildOk hostOk armhfOk (l1 ++ l2) ∧
        exitCode (runHarness avail buildOk hostOk armhfOk (l1 ++ p :: l2))
          = exitCode (runHarness avail buildOk hostOk armhfOk (l1 ++ l2)) := by
  intro avail buildOk hostOk armhfOk p l1 l2 st h
  have hout : archOutcome avail buildOk p = ArchOutcome.skipped := by
    unfold archOutcome
    simp [h]
  have hstep : ∀ s : TestState, stepArch avail buildOk s p = s := by
    intro s
    unfold stepArch
    rw [hout]
  have hrun : runHarness avail buildOk hostOk armhfOk (l1 ++ p :: l2)
      = runHarness avail buildOk hostOk armhfOk (l1 ++ l2) := by
    unfold runHarness
    rw [List.foldl_append, List.foldl_append, List.foldl_cons, hstep]
  exact ⟨hout, hstep st, hrun, by rw [hrun]⟩

/-- C2 witness: with no toolchain available, the `arm64` entry is skipped,
the counters are untouched, and its presence in the list leaves the exit
status unchanged. -/
theorem C2_witness :
    stepArch (fun _ => false) (fun _ => true) ⟨0, 0, []⟩
        ("arm64", "aarch64-linux-gnu-g++") = ⟨0, 0, []⟩ ∧
    exitCode (runHarness (fun _ => false) (fun _ => true) true true
        ([] ++ ("arm64", "aarch64-linux-gnu-g++") :: []))
      = exitCode (runHarness (fun _ => false) (fun _ => true) true true ([] ++ [])) := by
  have H := C2_absent_toolchain_skipped (fun _ => false) (fun _ => true) true true
    ("arm64", "aarch64-linux-gnu-g++") [] [] ⟨0, 0, []⟩ rfl
  exact ⟨H.2.1, H.2.2.2⟩

/-- C3: the harness exits 0 iff the host build, the default ARM HF build and
every attempted listed architecture build succeed; every failing attempted
build's name lands in `FAILED_ARCHS`, and every name in `FAILED_ARCHS`
appears as a `    - <name>` line of the printed summary. -/
theorem C3_exit_iff_all_attempted_pass :
    ∀ (avail buildOk : String → Bool) (hostOk armhfOk : Bool)
      (archs : List (String × String)),
      (exitCode (runHarness avail buildOk hostOk armhfOk archs) = 0 ↔
        (hostOk = true ∧ armhfOk = true ∧
          ∀ p ∈ archs, avail p.2 = true → buildOk p.1 = true)) ∧
      (∀ p ∈ archs, avail p.2 = true → buildOk p.1 = false →
        p.1 ∈ (runHarness avail buildOk hostOk armhfOk archs).failedArchs) ∧
      (hostOk = false →
        "host" ∈ (runHarness avail buildOk hostOk armhfOk archs).failedArchs) ∧
      (armhfOk = false →
        "armhf" ∈ (runHarness avail buildOk hostOk armhfOk archs).failedArchs) ∧
      (∀ name ∈ (runHarness avail buildOk hostOk armhfOk archs).failedArchs,
        ("    - " ++ name) ∈ summaryLines (runHarness avail buildOk hostOk armhfOk archs)) := by
  intro avail buildOk hostOk armhfOk archs
  obtain ⟨h1, h2⟩ := stepArch_foldl_invariant avail buildOk archs (initState hostOk armhfOk)
  refine ⟨?_, ?_, ?_, ?_, ?_⟩
  · rw [exitCode, runHarness, h1]
    have hinit : (initState hostOk armhfOk).failed = 0 ↔ (hostOk = true ∧ armhfOk = true) := by
      cases hostOk <;> cases armhfOk <;> simp [initState, recordBuild]
    have hfail : archFailures avail buildOk archs = [] ↔
        ∀ p ∈ archs, avail p.2 = true → buildOk p.1 = true := by
      rw [archFailures, List.filterMap_eq_nil_iff]
      constructor
      · intro hall p hp ha
        have := hall p hp
        by_cases hb : buildOk p.1 = true
        · exact hb
        · rw [(archOutcome_failed_iff avail buildOk p).mpr
            ⟨ha, Bool.not_eq_true _ ▸ hb⟩] at this
          simp at this
      · intro hall p hp
        cases hout : archOutcome avail buildOk p
        · rfl
        · rfl
        · obtain ⟨ha, hb⟩ := (archOutcome_failed_iff avail buildOk p).mp hout
          rw [hall p hp ha] at hb
          cases hb
    constructor
    · intro hz
      have : (initState hostOk armhfOk).failed = 0 ∧
          (archFailures avail buildOk archs).length = 0 := by
        by_cases h : (initState hostOk armhfOk).failed +
            (archFailures avail buildOk archs).length = 0
        · omega
        · simp [h] at hz
      obtain ⟨hi1, hi2⟩ := hinit.mp this.1
      exact ⟨hi1, hi2, hfail.mp (List.length_eq_zero.mp this.2)⟩
    · intro ⟨ha, hb, hc⟩
      have : (initState hostOk armhfOk).failed = 0 := hinit.mpr ⟨ha, hb⟩
      have hz : archFailures avail buildOk archs = [] := hfail.mpr hc
      simp [this, hz]
  · intro p hp ha hb
    rw [runHarness, h2]
    refine List.mem_append_right _ ?_
    rw [archFailures, List.mem_filterMap]
    refine ⟨p, hp, ?_⟩
    rw [(archOutcome_failed_iff avail buildOk p).mpr ⟨ha, hb⟩]
  · intro h
    rw [runHarness, h2]
    refine List.mem_append_left _ ?_
    cases armhfOk <;> simp [initState, recordBuild, h]
  · intro h
    rw [runHarness, h2]
    refine List.mem_append_left _ ?_
    cases hostOk <;> simp [initState, recordBuild, h]
  · intro name hname
    have hpos : 0 < (runHarness avail buildOk hostOk armhfOk archs).failed := by
      rw [runHarness_failed_eq_length]
      exact List.length_pos.mpr (List.ne_nil_of_mem hname)
    rw [summaryLines, if_pos hpos]
    refine List.mem_append_right _ (List.mem_cons_of_mem _ ?_)
    exact List.mem_map.mpr ⟨name, hname, rfl⟩

/-- C3 witness: with every toolchain present and every build succeeding the
exit status is 0; and when all cross builds fail, `    - arm64` appears in
the printed summary. -/
theorem C3_witness :
    exitCode (runHarness (fun _ => true) (fun _ => true) true true ARCH_COMPILERS) = 0 ∧
    "    - arm64" ∈ summaryLines (runHarness (fun _ => true) (fun _ => false)
      true true ARCH_COMPILERS) := by
  constructor
  · exact (C3_exit_iff_all_attempted_pass (fun _ => true) (fun _ => true) true true
      ARCH_COMPILERS).1.mpr ⟨rfl, rfl, fun p _ _ => rfl⟩
  · have H := C3_exit_iff_all_attempted_pass (fun _ => true) (fun _ => false) true true
      ARCH_COMPILERS
    have h1 : ("arm64", "aarch64-linux-gnu-g++") ∈ ARCH_COMPILERS := by
      simp [ARCH_COMPILERS]
    have h2 := H.2.1 ("arm64", "aarch64-linux-gnu-g++") h1 rfl rfl
    exact H.2.2.2.2 "arm64" h2

/-! ## Claim C8: the sample program main loop -/

/-- The loop's final counter is its start value plus the number of
iterations run. -/
theorem mainLoopFrom_counter (dbg : Bool) :
    ∀ (k c : Nat), (mainLoopFrom dbg k c).2 = c + k := by
  intro k
  induction k with
  | zero => intro c; simp [mainLoopFrom]
  | succ k ih =>
    intro c
    simp only [mainLoopFrom, ih]
    omega

/-- C8 counterexample: the claim says every iteration sleeps and THEN logs,
but in the one-iteration debug run the first event is the counter log and
the sleep comes after it — the iteration logs first and sleeps last. -/
theorem C8_counterexample :
    mainLoop true 1 =
      [LoopEv.logCounter 0, LoopEv.sleep LOOP_DELAY_US, LoopEv.exitReport 1] ∧
    mainLoop true 1 ≠
      [LoopEv.sleep LOOP_DELAY_US, LoopEv.logCounter 0, LoopEv.exitReport 1] := by
  decide

/-- C8 amended: the loop checks the shared flag once per iteration and runs
until the check observes it; each iteration logs the counter FIRST (every
iteration in debug mode, every tenth — counter divisible by 10 — otherwise,
with an extra TRACE line in debug mode when the incremented counter is a
multiple of 10) and THEN sleeps the fixed 500 ms interval; on exit the
program reports the iteration count reached. -/
theorem C8_loop_shape :
    ∀ (dbg : Bool) (k c : Nat),
      (mainLoopFrom dbg k c).2 = c + k ∧
      mainLoop dbg k = (mainLoopFrom dbg k 0).1 ++ [LoopEv.exitReport k] ∧
      loopIterEvents true c =
        LoopEv.logCounter c ::
          ((if (c + 1) % 10 = 0 then [LoopEv.periodicTrace (c + 1)] else [])
            ++ [LoopEv.sleep LOOP_DELAY_US]) ∧
      loopIterEvents false c =
        (if c % 10 = 0 then [LoopEv.logCounter c] else [])
          ++ [LoopEv.sleep LOOP_DELAY_US] ∧
      mainLoopFrom dbg (k + 1) c =
        (loopIterEvents dbg c ++ (mainLoopFrom dbg k (c + 1)).1,
          (mainLoopFrom dbg k (c + 1)).2) ∧
      mainLoopFrom dbg 0 c = ([], c) := by
  intro dbg k c
  refine ⟨mainLoopFrom_counter dbg k c, ?_, rfl, ?_, rfl, rfl⟩
  · rw [mainLoop]
    rw [mainLoopFrom_counter dbg k 0]
    simp
  · simp [loopIterEvents]
